import Mathlib

/-
Shallow embedding of the external-dns-operator reconciliation controller
(pkg/operator/controller/controller.go, deployment.go, names.go, in both
file variants present in the repository) and proofs about it.

Go structs become Lean structures with value semantics; Go pointers that
are only nil-checked or dereferenced become Option; Go pointers that are
compared with == (address identity) become `GoPtr`, an Option carrying an
allocation id alongside the value.  Effectful kube-client calls (Get,
List, Create, Update, Delete, Status().Update) are modelled by passing
their results in as oracle parameters and recording the write operations
a function issues in an explicit trace list.
-/

namespace EDNS

/-- Provider type strings from the operator API (vendored
github.com/danehans/api/operator/v1 documents the values aws, azure,
google). -/
abbrev ProviderType := String

def AWSProvider : ProviderType := "aws"

def AzureProvider : ProviderType := "azure"

def GoogleProvider : ProviderType := "google"

/-- Platform type strings from the openshift config API
(external dependency; documented values). -/
abbrev PlatformType := String

def AWSPlatformType : PlatformType := "AWS"

def AzurePlatformType : PlatformType := "Azure"

def GCPPlatformType : PlatformType := "GCP"

/-- Source type strings from the operator API. -/
abbrev SourceType := String

def ServiceType : SourceType := "service"

def IngressType : SourceType := "ingress"

/-- Zone type strings from the operator API (external dependency). -/
abbrev ZoneType := String

def PublicZoneType : ZoneType := "public"

def PrivateZoneType : ZoneType := "private"

/-- A Go pointer, modelled as nil (`none`) or an allocation id paired
with the pointed-to value.  Distinct allocations carry distinct ids, so
Go pointer equality is id equality. -/
abbrev GoPtr (α : Type) := Option (Nat × α)

/-- Go pointer equality: two nil pointers are equal; two non-nil
pointers are equal exactly when they have the same address. -/
def ptrEq {α : Type} (p q : GoPtr α) : Bool :=
  match p, q with
  | none, none => true
  | some (a, _), some (b, _) => a == b
  | _, _ => false

/-- Go pointer dereference; the default stands in for the nil-deref
panic and is never reached on the inputs the code is run on. -/
def ptrVal {α : Type} (p : GoPtr α) (dflt : α) : α :=
  match p with
  | some (_, v) => v
  | none => dflt

/-- configv1.DNSZone (only the fields this code reads). -/
structure DNSZone where
  id : String := ""
  deriving Repr, DecidableEq

/-- operatorv1.ProviderSpec: spec.provider of an ExternalDNS. -/
structure ProviderSpec where
  type? : Option ProviderType := none
  zoneFilter? : Option (List DNSZone) := none
  args? : Option (List String) := none
  deriving Repr, DecidableEq

/-- operatorv1.ExternalDNSSpec. -/
structure ExternalDNSSpec where
  baseDomain : String := ""
  sources? : Option (List SourceType) := none
  zoneType? : GoPtr ZoneType := none
  provider : ProviderSpec := {}
  deriving Repr, DecidableEq

/-- operatorv1.ExternalDNSStatus. -/
structure ExternalDNSStatus where
  providerType? : Option ProviderType := none
  baseDomain : String := ""
  deriving Repr, DecidableEq

/-- operatorv1.ExternalDNS with the object metadata the controller
reads (name, namespace, finalizers, deletion timestamp). -/
structure ExternalDNS where
  name : String := ""
  nspace : String := ""
  finalizers : List String := []
  deletionTimestamp? : Option Nat := none
  spec : ExternalDNSSpec := {}
  status : ExternalDNSStatus := {}
  deriving Repr, DecidableEq

/-- configv1.DNS (spec.baseDomain, spec.privateZone). -/
structure DNSConfig where
  baseDomain : String := ""
  privateZone : GoPtr DNSZone := none
  deriving Repr, DecidableEq

/-- configv1.Infrastructure status fields the controller reads. -/
structure Infrastructure where
  platform : PlatformType := ""
  infrastructureName : String := ""
  deriving Repr, DecidableEq

/-- A kube API error: message plus whether errors.IsNotFound holds. -/
structure KErr where
  notFound : Bool := false
  msg : String := ""
  deriving Repr, DecidableEq

instance {ε α : Type} [DecidableEq ε] [DecidableEq α] : DecidableEq (Except ε α) :=
  fun a b =>
    match a, b with
    | .error x, .error y =>
        if h : x = y then .isTrue (by rw [h]) else .isFalse (by simp [h])
    | .ok x, .ok y =>
        if h : x = y then .isTrue (by rw [h]) else .isFalse (by simp [h])
    | .error _, .ok _ => .isFalse (by simp)
    | .ok _, .error _ => .isFalse (by simp)

def DefaultExternalDNSController : String := "default"

def ExternalDNSControllerFinalizer : String :=
  "externaldns.operator.openshift.io/externaldns-controller"

/-- Modelled from the spec: pkg/util/slice.ContainsString is code of
this repository not present under src/; it is the standard string-slice
membership helper used for finalizer management. -/
def containsString (xs : List String) (s : String) : Bool :=
  xs.contains s

/-- Modelled from the spec: pkg/util/slice.RemoveString is code of this
repository not present under src/; it is the standard helper returning
the slice with every occurrence of the string removed. -/
def removeString (xs : List String) (s : String) : List String :=
  xs.filter (fun x => x != s)

/-- controller.go IsStatusBaseDomainSet. -/
def IsStatusBaseDomainSet (edns : ExternalDNS) : Bool :=
  !(edns.status.baseDomain.length == 0)

/-- controller.go IsStatusProviderSet. -/
def IsStatusProviderSet (edns : ExternalDNS) : Bool :=
  edns.status.providerType?.isSome

/-- controller.go providerTypeForInfra: switch on the infrastructure
platform; the provider variable starts at the zero value and the
function always returns a non-nil pointer (here: some). -/
def providerTypeForInfra (infraConfig : Infrastructure) : Option ProviderType :=
  let provider : ProviderType :=
    if infraConfig.platform == AWSPlatformType then AWSProvider
    else if infraConfig.platform == AzurePlatformType then AzureProvider
    else if infraConfig.platform == GCPPlatformType then GoogleProvider
    else ""
  some provider

/-- Result of an effectful client call returning a value. -/
abbrev KRes (α : Type) := Except KErr α

/-- controller.go (first variant) isBaseDomainUnique: list the
ExternalDNSes in the operator namespace and report false on any item
whose status.baseDomain equals the domain.  The list result is an
oracle parameter. -/
def isBaseDomainUnique (domain : String) (listRes : KRes (List ExternalDNS)) :
    Except String Bool :=
  match listRes with
  | .error e => .error ("failed to list externaldnses: " ++ e.msg)
  | .ok items => .ok (!(items.any (fun dns => domain == dns.status.baseDomain)))

/-- controller.go (second variant) isBaseDomainUniqueForZoneType: as
isBaseDomainUnique, but a conflict additionally requires
dns.Spec.ZoneType == edns.Spec.ZoneType, a Go pointer comparison. -/
def isBaseDomainUniqueForZoneType (domain : String) (edns : ExternalDNS)
    (listRes : KRes (List ExternalDNS)) : Except String Bool :=
  match listRes with
  | .error e => .error ("failed to list externaldnses: " ++ e.msg)
  | .ok items =>
      .ok (!(items.any (fun dns =>
        domain == dns.status.baseDomain && ptrEq dns.spec.zoneType? edns.spec.zoneType?)))

/-- controller.go (first variant, lines 214-244)
enforceEffectiveBaseDomain: early return when status.baseDomain is
set; otherwise pick the domain (both switch branches read
edns.Spec.BaseDomain in this variant), check uniqueness, set the
status field only when unique, and always issue a status update.
Returns the Go error and the list of status updates issued. -/
def enforceEffectiveBaseDomainV1 (edns : ExternalDNS)
    (listRes : KRes (List ExternalDNS)) (updErr : Option String) :
    Except String Unit × List ExternalDNS :=
  if IsStatusBaseDomainSet edns then (.ok (), [])
  else
    let domain :=
      if edns.spec.baseDomain.length > 0 then edns.spec.baseDomain
      else edns.spec.baseDomain
    match isBaseDomainUnique domain listRes with
    | .error e => (.error e, [])
    | .ok unique =>
        let updated :=
          if unique then { edns with status := { edns.status with baseDomain := domain } }
          else edns
        match updErr with
        | some e =>
            (.error ("failed to update status of ExternalDNS " ++ edns.nspace ++ "/"
               ++ edns.name ++ ": " ++ e), [updated])
        | none => (.ok (), [updated])

/-- controller.go (second variant, lines 624-655)
enforceEffectiveBaseDomain: early return when status.baseDomain is
set; the domain defaults to dnsConfig.Spec.BaseDomain; on a zone-type
conflict it returns nil immediately without issuing any update;
otherwise it sets status.baseDomain and issues the status update. -/
def enforceEffectiveBaseDomainV2 (edns : ExternalDNS) (dnsConfig : DNSConfig)
    (listRes : KRes (List ExternalDNS)) (updErr : Option String) :
    Except String Unit × List ExternalDNS :=
  if IsStatusBaseDomainSet edns then (.ok (), [])
  else
    let domain :=
      if edns.spec.baseDomain.length > 0 then edns.spec.baseDomain
      else dnsConfig.baseDomain
    match isBaseDomainUniqueForZoneType domain edns listRes with
    | .error e => (.error e, [])
    | .ok unique =>
        if !unique then (.ok (), [])
        else
          let updated := { edns with status := { edns.status with baseDomain := domain } }
          match updErr with
          | some e =>
              (.error ("failed to update status of ExternalDNS " ++ edns.nspace ++ "/"
                 ++ edns.name ++ ": " ++ e), [updated])
          | none => (.ok (), [updated])

/-- controller.go enforceEffectiveProvider (identical in both
variants): early return when status.providerType is set; otherwise
publish spec.provider.type when non-nil, else the provider derived
from the infrastructure platform, via one status update. -/
def enforceEffectiveProvider (edns : ExternalDNS) (infraConfig : Infrastructure)
    (updErr : Option String) : Except String Unit × List ExternalDNS :=
  if IsStatusProviderSet edns then (.ok (), [])
  else
    let newProviderType :=
      match edns.spec.provider.type? with
      | some t => some t
      | none => providerTypeForInfra infraConfig
    let updated := { edns with status := { edns.status with providerType? := newProviderType } }
    match updErr with
    | some e =>
        (.error ("failed to update status of externaldns " ++ edns.nspace ++ "/"
           ++ edns.name ++ ": " ++ e), [updated])
    | none => (.ok (), [updated])

/-- controller.go enforceExternalDNSFinalizer (identical in both
variants): append the finalizer and issue an object Update only when
it is not already present. -/
def enforceExternalDNSFinalizer (edns : ExternalDNS) (updErr : Option String) :
    Except String Unit × List ExternalDNS :=
  if !containsString edns.finalizers ExternalDNSControllerFinalizer then
    let edns2 := { edns with
      finalizers := edns.finalizers ++ [ExternalDNSControllerFinalizer] }
    match updErr with
    | some e => (.error e, [edns2])
    | none => (.ok (), [edns2])
  else (.ok (), [])

/-- controller.go removeExternalDNSFinalizer (identical in both
variants): when the finalizer is present, issue an Update of a deep
copy with it removed. -/
def removeExternalDNSFinalizer (edns : ExternalDNS) (updErr : Option String) :
    Except String Unit × List ExternalDNS :=
  if containsString edns.finalizers ExternalDNSControllerFinalizer then
    let updated := { edns with
      finalizers := removeString edns.finalizers ExternalDNSControllerFinalizer }
    match updErr with
    | some e => (.error e, [updated])
    | none => (.ok (), [updated])
  else (.ok (), [])

/-- deployment.go ensureExternalDNSDeploymentDeleted (identical in
both variants): issue a Delete for the externaldns Deployment and
swallow only NotFound errors.  The delete result is an oracle. -/
def ensureExternalDNSDeploymentDeleted (deleteRes : Option KErr) : Except KErr Unit :=
  match deleteRes with
  | some e => if !e.notFound then .error e else .ok ()
  | none => .ok ()

/-- controller.go ensureExternalDNSDeleted (identical in both
variants): delete the Deployment first and only on success (or
NotFound) remove the finalizer.  The trace records the ExternalDNS
updates issued (finalizer removal). -/
def ensureExternalDNSDeleted (edns : ExternalDNS) (deleteRes : Option KErr)
    (updErr : Option String) : Except String Unit × List ExternalDNS :=
  match ensureExternalDNSDeploymentDeleted deleteRes with
  | .error e =>
      (.error ("failed to delete deployment for externaldns " ++ edns.name ++ ": "
        ++ e.msg), [])
  | .ok _ =>
      match removeExternalDNSFinalizer edns updErr with
      | (.error e, tr) =>
          (.error ("failed to remove finalizer from externaldns " ++ edns.name ++ ": "
            ++ e), tr)
      | (.ok _, tr) => (.ok (), tr)

/-- Result of a client Get used by ensureExternalDNSNamespace. -/
inductive GetRes where
  | found
  | notFound
  | err (msg : String)
  deriving Repr, DecidableEq

/-- Oracles for the four Get and four Create calls of
ensureExternalDNSNamespace, in source order: namespace, cluster role,
cluster role binding, service account. -/
structure NsOracles where
  nsGet : GetRes := .found
  nsCreate : Option String := none
  crGet : GetRes := .found
  crCreate : Option String := none
  crbGet : GetRes := .found
  crbCreate : Option String := none
  saGet : GetRes := .found
  saCreate : Option String := none
  deriving Repr, DecidableEq

/-- One Get-then-Create block of ensureExternalDNSNamespace: a Create
is issued only when the Get returned NotFound; any other Get error
aborts.  Returns the error outcome and whether a Create was issued. -/
def ensureObj (getWrap createWrap : String) (get : GetRes) (create : Option String) :
    Except String Unit × Bool :=
  match get with
  | .found => (.ok (), false)
  | .err m => (.error (getWrap ++ m), false)
  | .notFound =>
      match create with
      | some m => (.error (createWrap ++ m), true)
      | none => (.ok (), true)

/-- controller.go ensureExternalDNSNamespace (identical in both
variants): four sequential Get-or-Create blocks, aborting on the first
error.  The trace lists the objects for which a Create was issued. -/
def ensureExternalDNSNamespace (o : NsOracles) : Except String Unit × List String :=
  match ensureObj "failed to get externaldns namespace: "
      "failed to create externaldns namespace: " o.nsGet o.nsCreate with
  | (.error e, created) => (.error e, if created then ["namespace"] else [])
  | (.ok _, nsCreated) =>
    let tr0 := if nsCreated then ["namespace"] else []
    match ensureObj "failed to get externaldns cluster role: "
        "failed to create externaldns cluster role: " o.crGet o.crCreate with
    | (.error e, created) => (.error e, tr0 ++ if created then ["clusterrole"] else [])
    | (.ok _, crCreated) =>
      let tr1 := tr0 ++ if crCreated then ["clusterrole"] else []
      match ensureObj "failed to get externaldns cluster role binding: "
          "failed to create externaldns cluster role binding: " o.crbGet o.crbCreate with
      | (.error e, created) => (.error e, tr1 ++ if created then ["clusterrolebinding"] else [])
      | (.ok _, crbCreated) =>
        let tr2 := tr1 ++ if crbCreated then ["clusterrolebinding"] else []
        match ensureObj "failed to get externaldns service account: "
            "failed to create externaldns service account: " o.saGet o.saCreate with
        | (.error e, created) => (.error e, tr2 ++ if created then ["serviceaccount"] else [])
        | (.ok _, saCreated) => (.ok (), tr2 ++ if saCreated then ["serviceaccount"] else [])

/-- A container of the externaldns Deployment (the fields the
controller reads or writes). -/
structure Container where
  cname : String := ""
  image : String := ""
  args : List String := []
  env : List (String × String) := []
  deriving Repr, DecidableEq

/-- Pod anti-affinity settings desiredExternalDNSDeployment writes. -/
structure Affinity where
  weight : Nat := 0
  topologyKey : String := ""
  labelKey : String := ""
  labelValues : List String := []
  deriving Repr, DecidableEq

/-- appsv1.Deployment (the fields this operator reads or writes). -/
structure Deployment where
  name : String := ""
  nspace : String := ""
  labels : List (String × String) := []
  replicas : Option Nat := none
  selector : List (String × String) := []
  templateLabels : List (String × String) := []
  affinity : Option Affinity := none
  serviceAccountName : String := ""
  priorityClassName : String := ""
  containers : List Container := []
  deriving Repr, DecidableEq

def controllerDeploymentLabel : String :=
  "externaldns.operator.openshift.io/deployment-externaldns"

def OwningExternalDNSLabel : String :=
  "externaldns.operator.openshift.io/owning-externaldns"

/-- names.go ExternalDNSDeploymentNamespacedName /
ExternalDNSDeploymentName (identical in both variants). -/
def ExternalDNSDeploymentNamespacedName (edns : ExternalDNS) : String × String :=
  ("openshift-externaldns", "externaldns-" ++ edns.name)

/-- names.go ExternalDNSName (second variant) and
ExternalDNSDeploymentLabel (first variant): both return edns.Name. -/
def ExternalDNSName (edns : ExternalDNS) : String :=
  edns.name

/-- names.go ExternalDNSNamespaceName. -/
def ExternalDNSNamespaceName (edns : ExternalDNS) : String :=
  edns.nspace ++ "/" ++ edns.name

/-- names.go TextOwnerID. -/
def TextOwnerID (infraConfig : Infrastructure) (edns : ExternalDNS) : String :=
  infraConfig.infrastructureName ++ "/" ++ ExternalDNSNamespaceName edns

/-- names.go ExternalDNSDeploymentPodSelector (match labels). -/
def ExternalDNSDeploymentPodSelector (edns : ExternalDNS) : List (String × String) :=
  [(controllerDeploymentLabel, ExternalDNSName edns)]

/-- manifests.ExternalDNSDeployment: the base Deployment decoded from
assets/externaldns/deployment.yaml (one externaldns container with no
image and no args; name, namespace, image and args are set at
runtime). -/
def externalDNSBaseDeployment : Deployment :=
  { serviceAccountName := "externaldns"
    priorityClassName := "system-cluster-critical"
    containers := [{ cname := "externaldns" }] }

/-- The first container of a Deployment (Containers[0]; the manifests
guarantee one container, so the default is never reached). -/
def container0 (d : Deployment) : Container :=
  d.containers.headD {}

/-- Replace fields of Containers[0], keeping the rest of the list. -/
def mapContainer0 (d : Deployment) (f : Container → Container) : Deployment :=
  { d with containers :=
      match d.containers with
      | [] => []
      | c :: rest => f c :: rest }

/-- The source-argument loop shared by both desiredExternalDNSDeployment
variants: src starts as the given prefix and is extended (not reset) by
each source type before being appended as an argument. -/
def sourceArgsFrom : String → List SourceType → List String
  | _, [] => []
  | src, s :: rest =>
      let src2 := src ++ s
      src2 :: sourceArgsFrom src2 rest

/-- deployment.go (first variant) desiredExternalDNSDeployment:
template the Deployment from the base manifest.  Note the provider
argument is built by prefixing the platform with "--provider=", and
the AWS check then compares that prefixed string with the platform
type constant. -/
def desiredExternalDNSDeploymentV1 (edns : ExternalDNS) (externalDNSImage : String)
    (dnsConfig : DNSConfig) (infraConfig : Infrastructure) : Deployment :=
  let nn := ExternalDNSDeploymentNamespacedName edns
  let d := { externalDNSBaseDeployment with
    nspace := nn.1
    name := nn.2
    labels := [(OwningExternalDNSLabel, edns.name)]
    selector := ExternalDNSDeploymentPodSelector edns
    templateLabels := ExternalDNSDeploymentPodSelector edns
    affinity := some { weight := 100, topologyKey := "kubernetes.io/hostname",
                       labelKey := controllerDeploymentLabel,
                       labelValues := [ExternalDNSName edns] } }
  let d := mapContainer0 d (fun c => { c with image := externalDNSImage })
  let owner := "--txt-owner-id=" ++ ExternalDNSName edns
  let d := mapContainer0 d (fun c => { c with args := c.args ++ ["--registry=txt", owner] })
  let platform := "--provider=" ++ infraConfig.platform
  let d := mapContainer0 d (fun c => { c with args := c.args ++ [platform] })
  let domain := "--domain-filter=" ++ dnsConfig.baseDomain
  let d := mapContainer0 d (fun c => { c with args := c.args ++ [domain] })
  let src := "--source="
  let d :=
    match edns.spec.sources? with
    | some sources =>
        mapContainer0 d (fun c => { c with args := c.args ++ sourceArgsFrom src sources })
    | none =>
        mapContainer0 d (fun c =>
          { c with args := c.args ++ [src ++ ServiceType, src ++ IngressType] })
  if platform == AWSPlatformType then
    mapContainer0 d (fun c => { c with args := c.args ++ ["--no-aws-evaluate-target-health"] })
  else d

/-- The AWS credential data of Config.Credentials (second variant). -/
structure Credentials where
  awsAccessKeyId : String := ""
  awsSecretAccessKey : String := ""
  deriving Repr, DecidableEq

/-- part_007 (second variant) desiredExternalDNSDeployment: the
provider argument comes from the published status.providerType, and
AWS-specific env and args are added when that provider is aws. -/
def desiredExternalDNSDeploymentV2 (edns : ExternalDNS) (externalDNSImage : String)
    (infraConfig : Infrastructure) (credentials : Credentials) : Deployment :=
  let nn := ExternalDNSDeploymentNamespacedName edns
  let d := { externalDNSBaseDeployment with
    nspace := nn.1
    name := nn.2
    labels := [(OwningExternalDNSLabel, edns.name)]
    selector := ExternalDNSDeploymentPodSelector edns
    templateLabels := ExternalDNSDeploymentPodSelector edns
    affinity := some { weight := 100, topologyKey := "kubernetes.io/hostname",
                       labelKey := controllerDeploymentLabel,
                       labelValues := [ExternalDNSName edns] } }
  let d := mapContainer0 d (fun c => { c with image := externalDNSImage })
  let owner := "--txt-owner-id=" ++ TextOwnerID infraConfig edns
  let d := mapContainer0 d (fun c => { c with args := c.args ++ ["--registry=txt", owner] })
  let providerType := edns.status.providerType?.getD ""
  let provider := "--provider=" ++ providerType
  let d := mapContainer0 d (fun c => { c with args := c.args ++ [provider] })
  let src := "--source="
  let d := mapContainer0 d (fun c =>
    { c with args := c.args ++ sourceArgsFrom src (edns.spec.sources?.getD []) })
  let d :=
    if providerType == AWSProvider then
      let d := mapContainer0 d (fun c =>
        { c with env := c.env ++
            [("AWS_ACCESS_KEY_ID", credentials.awsAccessKeyId),
             ("AWS_SECRET_ACCESS_KEY", credentials.awsSecretAccessKey)] })
      let d := mapContainer0 d (fun c =>
        { c with args := c.args ++ ["--no-aws-evaluate-target-health", "--aws-api-retries=3"] })
      let d :=
        if ptrVal edns.spec.zoneType? "" == PublicZoneType then
          mapContainer0 d (fun c => { c with args := c.args ++ ["--aws-zone-type=public"] })
        else d
      if ptrVal edns.spec.zoneType? "" == PrivateZoneType then
        mapContainer0 d (fun c => { c with args := c.args ++ ["--aws-zone-type=private"] })
      else d
    else d
  let d :=
    match edns.spec.provider.args? with
    | some extraArgs => mapContainer0 d (fun c => { c with args := c.args ++ extraArgs })
    | none => d
  match edns.spec.provider.zoneFilter? with
  | some zones =>
      mapContainer0 d (fun c =>
        { c with args := c.args ++
            (zones.filterMap (fun z =>
              if z.id.length != 0 then some ("--zone-id-filter=" ++ z.id) else none)) })
  | none => d

/-- deployment.go deploymentConfigChanged (identical in both
variants): compare Containers[0] args (cmp with EquateEmpty, which the
list model renders as plain equality) and image; on a difference,
return a deep copy of current with only those two fields replaced. -/
def deploymentConfigChanged (current expected : Deployment) : Bool × Option Deployment :=
  if (container0 current).args == (container0 expected).args
      && (container0 current).image == (container0 expected).image then
    (false, none)
  else
    (true, some (mapContainer0 current (fun c =>
      { c with args := (container0 expected).args, image := (container0 expected).image })))

/-- deployment.go updateExternalDNSDeployment (identical in both
variants): issue an Update only when deploymentConfigChanged reports a
change.  The trace lists the Deployment updates issued. -/
def updateExternalDNSDeployment (current desired : Deployment) (updErr : Option String) :
    Except String Unit × List Deployment :=
  match deploymentConfigChanged current desired with
  | (false, _) => (.ok (), [])
  | (true, none) => (.ok (), [])
  | (true, some updated) =>
      match updErr with
      | some e =>
          (.error ("failed to update ExternalDNS deployment " ++ updated.nspace ++ "/"
            ++ updated.name ++ ": " ++ e), [updated])
      | none => (.ok (), [updated])

/-- Oracles for one Reconcile pass (first variant): the fetch of the
requested ExternalDNS, the two config Gets, and the outcome of each
reconcile step (none = the step succeeded). -/
structure ReconcileOracles where
  getEdns : Except KErr ExternalDNS
  getDns : Except String DNSConfig := .ok {}
  getInfra : Except String Infrastructure := .ok {}
  nsStep : Option String := none
  baseDomainStep : Option String := none
  providerStep : Option String := none
  deletedStep : Option String := none
  finalizerStep : Option String := none
  ensureStep : Option String := none

/-- controller.go (first variant, lines 90-160) Reconcile: the errs
list the function aggregates and returns (the aggregate error is nil
exactly when the list is empty).  Requests whose name is not "default"
and NotFound fetches are skipped with no error; config Get failures
are collected; the namespace step error is collected without gating
the base-domain step; the remaining steps are gated by the ad hoc
else-if chain of the source. -/
def ReconcileV1 (requestName : String) (o : ReconcileOracles) : List String :=
  if requestName != DefaultExternalDNSController then []
  else
    match o.getEdns with
    | .error e =>
        if e.notFound then []
        else ["failed to get externaldns " ++ requestName ++ ": " ++ e.msg]
    | .ok edns =>
        let errs : List String := []
        let (dnsOk, errs) :=
          match o.getDns with
          | .error e => (false, errs ++ ["failed to get dns.config cluster: " ++ e])
          | .ok _ => (true, errs)
        let (infraOk, errs) :=
          match o.getInfra with
          | .error e => (false, errs ++ ["failed to get infrastructure cluster: " ++ e])
          | .ok _ => (true, errs)
        if dnsOk && infraOk then
          let errs :=
            match o.nsStep with
            | some e => errs ++ ["failed to ensure externaldns namespace: " ++ e]
            | none => errs
          match o.baseDomainStep with
          | some e =>
              errs ++ ["failed to enforce the effective externaldns baseDomain for "
                ++ edns.name ++ ": " ++ e]
          | none =>
              if IsStatusBaseDomainSet edns then
                match o.providerStep with
                | some e =>
                    errs ++ ["failed to enforce the effective provider for externaldns "
                      ++ edns.name ++ ": " ++ e]
                | none =>
                    if edns.deletionTimestamp?.isSome then
                      match o.deletedStep with
                      | some e =>
                          errs ++ ["failed to ensure deletion for externaldns "
                            ++ edns.name ++ ": " ++ e]
                      | none => errs
                    else
                      match o.finalizerStep with
                      | some e =>
                          errs ++ ["failed to enforce finalizer for externaldns "
                            ++ edns.name ++ ": " ++ e]
                      | none =>
                          match o.ensureStep with
                          | some e =>
                              errs ++ ["failed to ensure dns " ++ edns.name ++ ": " ++ e]
                          | none => errs
              else errs
        else errs

/-- The claim-side reading of which Reconcile steps are attempted and
whether any attempted step fails, written as a flat Boolean over the
oracles (a step is attempted when the control flow of the spec's
description reaches it). -/
def reconcileHasFailureV1 (o : ReconcileOracles) : Bool :=
  match o.getEdns with
  | .error e => !e.notFound
  | .ok edns =>
      let dnsOk := match o.getDns with | .ok _ => true | .error _ => false
      let infraOk := match o.getInfra with | .ok _ => true | .error _ => false
      !dnsOk || !infraOk ||
        (o.nsStep.isSome ||
          o.baseDomainStep.isSome ||
          (o.baseDomainStep.isNone && IsStatusBaseDomainSet edns &&
            (o.providerStep.isSome ||
              (o.providerStep.isNone &&
                (if edns.deletionTimestamp?.isSome then o.deletedStep.isSome
                 else
                   o.finalizerStep.isSome ||
                     (o.finalizerStep.isNone && o.ensureStep.isSome))))))

/-- Concrete resources used to evaluate the definitions. -/
def sampleListItem : ExternalDNS :=
  { name := "other", status := { baseDomain := "example.com" } }

def sampleEdnsUnset : ExternalDNS :=
  { name := "default", spec := { baseDomain := "example.com" } }

def sampleEdnsZonePub : ExternalDNS :=
  { name := "default",
    spec := { baseDomain := "example.com", zoneType? := some (2, PublicZoneType) } }

def sampleItemZonePub : ExternalDNS :=
  { name := "other",
    spec := { zoneType? := some (1, PublicZoneType) },
    status := { baseDomain := "example.com" } }

def sampleEdnsSources : ExternalDNS :=
  { name := "default",
    spec := { sources? := some [ServiceType, IngressType] },
    status := { providerType? := some AWSProvider, baseDomain := "example.com" } }

def sampleInfraAWS : Infrastructure :=
  { platform := AWSPlatformType, infrastructureName := "cluster-x" }

/-! Lemmas shared between proofs. -/

theorem removeString_not_mem (xs : List String) (s : String) :
    s ∉ removeString xs s := by
  intro h
  have := List.mem_filter.mp h
  simp at this

theorem string_eq_empty_of_length_zero (s : String) (h : s.length = 0) : s = "" := by
  cases s with
  | mk data =>
    simp [String.length] at h
    simp [h]

theorem isStatusBaseDomainSet_of_ne (edns : ExternalDNS)
    (h : edns.status.baseDomain ≠ "") : IsStatusBaseDomainSet edns = true := by
  have hlen : edns.status.baseDomain.length ≠ 0 :=
    fun h0 => h (string_eq_empty_of_length_zero _ h0)
  simp [IsStatusBaseDomainSet, hlen]

/-! Theorems settling the claims. -/

/-- C1: for every ExternalDNS whose status.baseDomain is already
non-empty, enforceEffectiveBaseDomain (in both variants) returns nil
and issues no status update, so a published baseDomain is never
changed by a later reconcile. -/
theorem enforceEffectiveBaseDomain_immutable (edns : ExternalDNS)
    (dnsConfig : DNSConfig) (listRes : KRes (List ExternalDNS)) (updErr : Option String)
    (h : edns.status.baseDomain ≠ "") :
    enforceEffectiveBaseDomainV1 edns listRes updErr = (.ok (), []) ∧
    enforceEffectiveBaseDomainV2 edns dnsConfig listRes updErr = (.ok (), []) := by
  have hset := isStatusBaseDomainSet_of_ne edns h
  constructor
  · simp [enforceEffectiveBaseDomainV1, hset]
  · simp [enforceEffectiveBaseDomainV2, hset]

theorem enforceEffectiveBaseDomain_immutable_witness :
    ({ status := { baseDomain := "a.b" } } : ExternalDNS).status.baseDomain ≠ "" ∧
    enforceEffectiveBaseDomainV1 { status := { baseDomain := "a.b" } } (.ok []) none
      = (.ok (), []) := by
  refine ⟨by decide, ?_⟩
  exact (enforceEffectiveBaseDomain_immutable { status := { baseDomain := "a.b" } }
    {} (.ok []) none (by decide)).1

/-- C2: when status.providerType is nil, enforceEffectiveProvider
issues exactly one status update publishing spec.provider.type when
non-nil and otherwise the provider derived from the platform (aws for
AWS, azure for Azure, google for GCP); when status.providerType is
already non-nil it returns nil with no update. -/
theorem enforceEffectiveProvider_once (edns : ExternalDNS) (infra : Infrastructure)
    (updErr : Option String) :
    (edns.status.providerType?.isSome →
      enforceEffectiveProvider edns infra updErr = (.ok (), [])) ∧
    (edns.status.providerType? = none →
      ∃ u, (enforceEffectiveProvider edns infra updErr).2 = [u] ∧
        (∀ t, edns.spec.provider.type? = some t → u.status.providerType? = some t) ∧
        (edns.spec.provider.type? = none →
          u.status.providerType? = providerTypeForInfra infra) ∧
        (updErr = none → (enforceEffectiveProvider edns infra updErr).1 = .ok ())) ∧
    (∀ i : Infrastructure, i.platform = AWSPlatformType →
      providerTypeForInfra i = some AWSProvider) ∧
    (∀ i : Infrastructure, i.platform = AzurePlatformType →
      providerTypeForInfra i = some AzureProvider) ∧
    (∀ i : Infrastructure, i.platform = GCPPlatformType →
      providerTypeForInfra i = some GoogleProvider) := by
  refine ⟨?_, ?_, ?_, ?_, ?_⟩
  · intro hsome
    simp [enforceEffectiveProvider, IsStatusProviderSet, hsome]
  · intro hnone
    refine ⟨{ edns with status := { edns.status with providerType? :=
        match edns.spec.provider.type? with
        | some t => some t
        | none => providerTypeForInfra infra } }, ?_, ?_, ?_, ?_⟩
    · cases updErr <;> simp [enforceEffectiveProvider, IsStatusProviderSet, hnone]
    · intro t ht; simp [ht]
    · intro ht; simp [ht]
    · intro hu; simp [enforceEffectiveProvider, IsStatusProviderSet, hnone, hu]
  · intro i hp; simp [providerTypeForInfra, hp, AWSPlatformType]
  · intro i hp
    simp [providerTypeForInfra, hp, AzurePlatformType, AWSPlatformType]
  · intro i hp
    simp [providerTypeForInfra, hp, GCPPlatformType, AWSPlatformType, AzurePlatformType]

theorem enforceEffectiveProvider_once_witness :
    (enforceEffectiveProvider {} { platform := "AWS" } none).2.length = 1 ∧
    providerTypeForInfra { platform := "AWS" } = some AWSProvider := by
  have h := enforceEffectiveProvider_once ({} : ExternalDNS) { platform := "AWS" } none
  obtain ⟨u, hu, -, -, -⟩ := h.2.1 rfl
  exact ⟨by rw [hu]; rfl, h.2.2.1 { platform := "AWS" } rfl⟩

/-- C10: for an infrastructure on none of AWS, Azure, GCP,
providerTypeForInfra still returns a non-nil pointer, to the empty
provider type; with nil spec.provider.type the controller then
publishes that empty provider, and IsStatusProviderSet reports the
provider as set afterwards. -/
theorem providerTypeForInfra_default_empty (infra : Infrastructure)
    (edns : ExternalDNS) (updErr : Option String)
    (h1 : infra.platform ≠ AWSPlatformType)
    (h2 : infra.platform ≠ AzurePlatformType)
    (h3 : infra.platform ≠ GCPPlatformType) :
    providerTypeForInfra infra = some "" ∧
    (edns.status.providerType? = none → edns.spec.provider.type? = none →
      ∃ u, (enforceEffectiveProvider edns infra updErr).2 = [u] ∧
        u.status.providerType? = some "" ∧ IsStatusProviderSet u = true) := by
  have hpt : providerTypeForInfra infra = some "" := by
    simp [providerTypeForInfra, h1, h2, h3]
  refine ⟨hpt, ?_⟩
  intro hs hspec
  refine ⟨{ edns with status := { edns.status with providerType? := some "" } },
    ?_, by simp, by simp [IsStatusProviderSet]⟩
  cases updErr <;>
    simp [enforceEffectiveProvider, IsStatusProviderSet, hs, hspec, hpt]

theorem providerTypeForInfra_default_empty_witness :
    providerTypeForInfra { platform := "Libvirt" } = some "" ∧
    (enforceEffectiveProvider {} { platform := "Libvirt" } none).2.length = 1 := by
  have h := providerTypeForInfra_default_empty { platform := "Libvirt" }
    ({} : ExternalDNS) none (by decide) (by decide) (by decide)
  obtain ⟨u, hu, -, -⟩ := h.2 rfl rfl
  exact ⟨h.1, by rw [hu]; rfl⟩

/-- C3: ensureExternalDNSDeleted removes the finalizer only after the
Deployment delete succeeded or hit NotFound; on any other delete error
it returns an error without issuing any ExternalDNS update, leaving
the finalizer list unchanged. -/
theorem ensureExternalDNSDeleted_gates_finalizer (edns : ExternalDNS)
    (deleteRes : Option KErr) (updErr : Option String) :
    (∀ e, deleteRes = some e → e.notFound = false →
      ensureExternalDNSDeleted edns deleteRes updErr =
        (.error ("failed to delete deployment for externaldns " ++ edns.name ++ ": "
          ++ e.msg), [])) ∧
    ((deleteRes = none ∨ ∃ e, deleteRes = some e ∧ e.notFound = true) →
      containsString edns.finalizers ExternalDNSControllerFinalizer = true →
      ∃ u, (ensureExternalDNSDeleted edns deleteRes updErr).2 = [u] ∧
        ExternalDNSControllerFinalizer ∉ u.finalizers ∧
        (updErr = none → ensureExternalDNSDeleted edns deleteRes updErr = (.ok (), [u]))) := by
  constructor
  · intro e he hnf
    simp [ensureExternalDNSDeleted, ensureExternalDNSDeploymentDeleted, he, hnf]
  · intro hdel hfin
    have hok : ensureExternalDNSDeploymentDeleted deleteRes = .ok () := by
      rcases hdel with h | ⟨e, he, hnf⟩
      · simp [ensureExternalDNSDeploymentDeleted, h]
      · simp [ensureExternalDNSDeploymentDeleted, he, hnf]
    refine ⟨{ edns with
        finalizers := removeString edns.finalizers ExternalDNSControllerFinalizer },
      ?_, removeString_not_mem _ _, ?_⟩ <;>
      cases updErr <;>
        simp_all [ensureExternalDNSDeleted, removeExternalDNSFinalizer, hok, hfin]

theorem ensureExternalDNSDeleted_gates_finalizer_witness :
    (({ notFound := false, msg := "boom" } : KErr).notFound = false) ∧
    ensureExternalDNSDeleted
        { name := "default", finalizers := [ExternalDNSControllerFinalizer] }
        (some { notFound := false, msg := "boom" }) none =
      (.error "failed to delete deployment for externaldns default: boom", []) := by
  refine ⟨by decide, ?_⟩
  have := (ensureExternalDNSDeleted_gates_finalizer
    { name := "default", finalizers := [ExternalDNSControllerFinalizer] }
    (some { notFound := false, msg := "boom" }) none).1
    { notFound := false, msg := "boom" } rfl (by decide)
  simpa using this

/-- C9: deploymentConfigChanged returns false with no updated object
exactly when Containers[0] args and image already match; when it
reports a change, the updated Deployment is the current one with only
Containers[0].Args and Containers[0].Image replaced by the expected
values, every other field (labels, replicas, selector, affinity,
template labels, the container name and env, the remaining containers)
being preserved. -/
theorem deploymentConfigChanged_frame (current expected : Deployment) :
    (deploymentConfigChanged current expected = (false, none) ↔
      (container0 current).args = (container0 expected).args ∧
        (container0 current).image = (container0 expected).image) ∧
    (current.containers ≠ [] →
      ∀ u, (deploymentConfigChanged current expected).2 = some u →
        u.name = current.name ∧ u.nspace = current.nspace ∧
        u.labels = current.labels ∧ u.replicas = current.replicas ∧
        u.selector = current.selector ∧ u.templateLabels = current.templateLabels ∧
        u.affinity = current.affinity ∧
        u.serviceAccountName = current.serviceAccountName ∧
        u.priorityClassName = current.priorityClassName ∧
        (container0 u).cname = (container0 current).cname ∧
        (container0 u).env = (container0 current).env ∧
        (container0 u).args = (container0 expected).args ∧
        (container0 u).image = (container0 expected).image ∧
        u.containers.tail = current.containers.tail) := by
  constructor
  · constructor
    · intro h
      by_contra hne
      have : ¬((container0 current).args = (container0 expected).args ∧
          (container0 current).image = (container0 expected).image) := hne
      simp [deploymentConfigChanged] at h
      rcases h with ⟨ha, hi⟩
      exact this ⟨ha, hi⟩
    · intro ⟨ha, hi⟩
      simp [deploymentConfigChanged, ha, hi]
  · intro hne u hu
    have hchg : ¬((container0 current).args = (container0 expected).args ∧
        (container0 current).image = (container0 expected).image) := by
      by_contra hc
      simp [deploymentConfigChanged, hc.1, hc.2] at hu
    obtain ⟨c, rest, hcr⟩ : ∃ c rest, current.containers = c :: rest := by
      cases h : current.containers with
      | nil => exact absurd h hne
      | cons c rest => exact ⟨c, rest, rfl⟩
    have hu2 : u = mapContainer0 current (fun c =>
        { c with args := (container0 expected).args,
                 image := (container0 expected).image }) := by
      simp only [deploymentConfigChanged] at hu
      rw [if_neg (by simpa using hchg)] at hu
      simpa using hu.symm
    subst hu2
    refine ⟨rfl, rfl, rfl, rfl, rfl, rfl, rfl, rfl, rfl, ?_, ?_, ?_, ?_, ?_⟩ <;>
      simp [mapContainer0, container0, hcr]

theorem deploymentConfigChanged_frame_witness :
    ({ containers := [{ cname := "externaldns", image := "b" }] } : Deployment).labels
      = ({ containers := [{ cname := "externaldns", image := "a" }] } : Deployment).labels ∧
    deploymentConfigChanged { containers := [{ cname := "externaldns", image := "a" }] }
        { containers := [{ cname := "externaldns", image := "a" }] } = (false, none) := by
  constructor
  · exact ((deploymentConfigChanged_frame
      { containers := [{ cname := "externaldns", image := "a" }] }
      { containers := [{ cname := "externaldns", image := "b" }] }).2
      (by decide) { containers := [{ cname := "externaldns", image := "b" }] }
      (by decide)).2.2.1
  · exact (deploymentConfigChanged_frame
      { containers := [{ cname := "externaldns", image := "a" }] }
      { containers := [{ cname := "externaldns", image := "a" }] }).1.mpr ⟨rfl, rfl⟩

/-- C4: the reconcile steps are idempotent on an already-converged
state: ensureExternalDNSNamespace issues a Create only for an object
whose Get returned NotFound, updateExternalDNSDeployment issues no
Update when Containers[0] args and image already equal the desired
ones, and enforceExternalDNSFinalizer issues no Update when the
finalizer is already present. -/
theorem reconcile_steps_idempotent (o : NsOracles) (current desired : Deployment)
    (edns : ExternalDNS) (updErr updErr2 : Option String) :
    (("namespace" ∈ (ensureExternalDNSNamespace o).2 → o.nsGet = .notFound) ∧
     ("clusterrole" ∈ (ensureExternalDNSNamespace o).2 → o.crGet = .notFound) ∧
     ("clusterrolebinding" ∈ (ensureExternalDNSNamespace o).2 → o.crbGet = .notFound) ∧
     ("serviceaccount" ∈ (ensureExternalDNSNamespace o).2 → o.saGet = .notFound)) ∧
    ((container0 current).args = (container0 desired).args →
      (container0 current).image = (container0 desired).image →
      updateExternalDNSDeployment current desired updErr = (.ok (), [])) ∧
    (containsString edns.finalizers ExternalDNSControllerFinalizer = true →
      enforceExternalDNSFinalizer edns updErr2 = (.ok (), [])) := by
  refine ⟨?_, ?_, ?_⟩
  · obtain ⟨nsG, nsC, crG, crC, crbG, crbC, saG, saC⟩ := o
    cases nsG <;> cases crG <;> cases crbG <;> cases saG <;>
      cases nsC <;> cases crC <;> cases crbC <;> cases saC <;>
        simp [ensureExternalDNSNamespace, ensureObj]
  · intro ha hi
    simp [updateExternalDNSDeployment, deploymentConfigChanged, ha, hi]
  · intro hfin
    simp [enforceExternalDNSFinalizer, hfin]

theorem reconcile_steps_idempotent_witness :
    ({ nsGet := .notFound } : NsOracles).nsGet = .notFound ∧
    updateExternalDNSDeployment {} {} none = (.ok (), []) ∧
    enforceExternalDNSFinalizer { finalizers := [ExternalDNSControllerFinalizer] } none
      = (.ok (), []) := by
  have h := reconcile_steps_idempotent { nsGet := .notFound } {} {}
    { finalizers := [ExternalDNSControllerFinalizer] } none none
  exact ⟨h.1.1 (by decide), h.2.1 rfl rfl, h.2.2 (by decide)⟩

/-- C6 (failing input): with spec.sources = [service, ingress], the
desired Deployment's args contain "--source=service" and then the
malformed "--source=serviceingress" instead of "--source=ingress", in
both variants: the loop keeps extending the same src string instead of
resetting it per source. -/
theorem desired_source_args_accumulate :
    ("--source=serviceingress" ∈ (container0 (desiredExternalDNSDeploymentV2
        sampleEdnsSources "img" sampleInfraAWS {})).args ∧
     "--source=ingress" ∉ (container0 (desiredExternalDNSDeploymentV2
        sampleEdnsSources "img" sampleInfraAWS {})).args) ∧
    ("--source=serviceingress" ∈ (container0 (desiredExternalDNSDeploymentV1
        sampleEdnsSources "img" {} sampleInfraAWS)).args ∧
     "--source=ingress" ∉ (container0 (desiredExternalDNSDeploymentV1
        sampleEdnsSources "img" {} sampleInfraAWS)).args) := by
  decide

/-- C7 (failing input): on an AWS infrastructure the first variant's
desired Deployment does not receive --no-aws-evaluate-target-health:
its guard compares the already-prefixed string "--provider=AWS" with
the platform constant "AWS" and so never fires.  The second variant,
which tests the published provider instead, does add the flag for
provider aws. -/
theorem desired_aws_flag_missing :
    "--no-aws-evaluate-target-health" ∉ (container0 (desiredExternalDNSDeploymentV1
        sampleEdnsSources "img" {} sampleInfraAWS)).args ∧
    "--provider=AWS" ∈ (container0 (desiredExternalDNSDeploymentV1
        sampleEdnsSources "img" {} sampleInfraAWS)).args ∧
    "--no-aws-evaluate-target-health" ∈ (container0 (desiredExternalDNSDeploymentV2
        sampleEdnsSources "img" sampleInfraAWS {})).args := by
  decide

/-- C8 counterexample: (i) in the first variant, with a conflicting
item in the list (equal status.baseDomain), enforceEffectiveBaseDomain
still issues a status update and returns an error when that update
fails, rather than returning nil; (ii) in the zone-type variant, an
item with equal domain and the same zoneType value behind a distinct
pointer is not treated as a conflict (the check compares pointers),
and the base domain is published anyway. -/
theorem baseDomain_unique_counterexample :
    sampleListItem.status.baseDomain = sampleEdnsUnset.spec.baseDomain ∧
    (enforceEffectiveBaseDomainV1 sampleEdnsUnset (.ok [sampleListItem]) (some "boom")).1
      = .error "failed to update status of ExternalDNS /default: boom" ∧
    ptrVal sampleItemZonePub.spec.zoneType? ""
      = ptrVal sampleEdnsZonePub.spec.zoneType? "" ∧
    sampleItemZonePub.status.baseDomain = sampleEdnsZonePub.spec.baseDomain ∧
    enforceEffectiveBaseDomainV2 sampleEdnsZonePub {} (.ok [sampleItemZonePub]) none
      = (.ok (), [{ sampleEdnsZonePub with
          status := { sampleEdnsZonePub.status with baseDomain := "example.com" } }]) := by
  decide

/-- C8 amended: the base domain is published only when unique.  In the
first variant a conflict (an item with equal status.baseDomain) leaves
status.baseDomain unchanged but still issues one status update whose
content equals the fetched object, and the result is nil exactly when
that update succeeds; in the zone-type variant a conflict (equal
domain and identical zoneType pointer) returns nil immediately with no
update; in both variants a failed list operation returns the list
error with no update issued. -/
theorem baseDomain_unique_guard (edns : ExternalDNS) (dnsConfig : DNSConfig)
    (items : List ExternalDNS) (e : KErr) (updErr : Option String)
    (hunset : edns.status.baseDomain = "") :
    ((items.any (fun dns => edns.spec.baseDomain == dns.status.baseDomain)) = true →
      (enforceEffectiveBaseDomainV1 edns (.ok items) updErr).2 = [edns] ∧
      ((enforceEffectiveBaseDomainV1 edns (.ok items) updErr).1 = .ok () ↔
        updErr = none)) ∧
    ((items.any (fun dns =>
        (if edns.spec.baseDomain.length > 0 then edns.spec.baseDomain
         else dnsConfig.baseDomain) == dns.status.baseDomain
        && ptrEq dns.spec.zoneType? edns.spec.zoneType?)) = true →
      enforceEffectiveBaseDomainV2 edns dnsConfig (.ok items) updErr = (.ok (), [])) ∧
    enforceEffectiveBaseDomainV1 edns (.error e) updErr
      = (.error ("failed to list externaldnses: " ++ e.msg), []) ∧
    enforceEffectiveBaseDomainV2 edns dnsConfig (.error e) updErr
      = (.error ("failed to list externaldnses: " ++ e.msg), []) := by
  have hset : IsStatusBaseDomainSet edns = false := by
    simp [IsStatusBaseDomainSet, hunset]
  refine ⟨?_, ?_, ?_, ?_⟩
  · intro hconf
    cases updErr <;>
      simp [enforceEffectiveBaseDomainV1, isBaseDomainUnique, hset, ite_self, hconf]
  · intro hconf
    cases updErr <;>
      simp [enforceEffectiveBaseDomainV2, isBaseDomainUniqueForZoneType, hset, hconf]
  · simp [enforceEffectiveBaseDomainV1, isBaseDomainUnique, hset]
  · simp [enforceEffectiveBaseDomainV2, isBaseDomainUniqueForZoneType, hset]

theorem baseDomain_unique_guard_witness :
    (enforceEffectiveBaseDomainV1 sampleEdnsUnset (.ok [sampleListItem]) none).2
      = [sampleEdnsUnset] ∧
    enforceEffectiveBaseDomainV2 sampleEdnsUnset {} (.error { msg := "x" }) none
      = (.error "failed to list externaldnses: x", []) := by
  have h := baseDomain_unique_guard sampleEdnsUnset {} [sampleListItem]
    { msg := "x" } none (by decide)
  exact ⟨(h.1 (by decide)).1, h.2.2.2⟩

/-- C5: Reconcile aggregates step errors best-effort: a NotFound when
fetching the requested ExternalDNS yields a nil aggregate
(reconciliation skipped); the aggregate is nil exactly when no
attempted step failed; and independent failures are all collected
(with both the namespace step and the base-domain step failing, both
wrapped errors are returned, in order). -/
theorem reconcile_aggregates_errors (o : ReconcileOracles) :
    (∀ e, o.getEdns = .error e → e.notFound = true →
      ReconcileV1 DefaultExternalDNSController o = []) ∧
    (ReconcileV1 DefaultExternalDNSController o = [] ↔
      reconcileHasFailureV1 o = false) ∧
    (∀ edns d i a b, o.getEdns = .ok edns → o.getDns = .ok d → o.getInfra = .ok i →
      o.nsStep = some a → o.baseDomainStep = some b →
      ReconcileV1 DefaultExternalDNSController o =
        ["failed to ensure externaldns namespace: " ++ a,
         "failed to enforce the effective externaldns baseDomain for "
           ++ edns.name ++ ": " ++ b]) := by
  refine ⟨?_, ?_, ?_⟩
  · intro e he hnf
    simp [ReconcileV1, he, hnf]
  · obtain ⟨ge, gd, gi, ns, bd, pr, de, fi, en⟩ := o
    cases ge with
    | error e =>
        cases hnf : e.notFound <;>
          simp [ReconcileV1, reconcileHasFailureV1, hnf]
    | ok edns =>
        cases gd <;> cases gi <;>
          cases ns <;> cases bd <;>
            cases hb : IsStatusBaseDomainSet edns <;>
              cases pr <;>
                cases hd : edns.deletionTimestamp? <;>
                  cases de <;> cases fi <;> cases en <;>
                    simp_all [ReconcileV1, reconcileHasFailureV1]
  · intro edns d i a b he hdns hinfra hns hbd
    simp [ReconcileV1, he, hdns, hinfra, hns, hbd]

theorem reconcile_aggregates_errors_witness :
    ReconcileV1 DefaultExternalDNSController
      { getEdns := .error { notFound := true } } = [] ∧
    ReconcileV1 DefaultExternalDNSController
      { getEdns := .ok { name := "default" }, nsStep := some "a",
        baseDomainStep := some "b" } =
      ["failed to ensure externaldns namespace: " ++ "a",
       "failed to enforce the effective externaldns baseDomain for "
         ++ "default" ++ ": " ++ "b"] := by
  refine ⟨(reconcile_aggregates_errors
    { getEdns := .error { notFound := true } }).1 { notFound := true } rfl rfl, ?_⟩
  exact (reconcile_aggregates_errors
    { getEdns := .ok { name := "default" }, nsStep := some "a",
      baseDomainStep := some "b" }).2.2
    { name := "default" } {} {} "a" "b" rfl rfl rfl rfl rfl

end EDNS
